import Mathlib

/-!
Shallow embedding of `tools/tiny-test-fw/IDF/IDFDUT.py`.

The Python module wraps a serial device-under-test with esptool-based
control operations.  Effectful code is embedded as functions producing a
trace of events (`List Event`) together with a result
(`Except Exc _`, where a `.error` models a raised Python exception).
External collaborators (esptool, the filesystem, the serial port, the
Application Descriptor) are parameters: their behaviour is supplied as
explicit data or outcome functions, and the embedding records exactly the
calls the Python code would make, in order.
-/

/-- Python exception kinds distinguished by the module.
`runtimeError` covers `RuntimeError` and its esptool `FatalError`
subclass (the only class the code catches); `idfToolError` is the
module's own `IDFToolError`; the rest model other raisable kinds. -/
inductive Exc where
  | runtimeError
  | idfToolError
  | notImplemented
  | osError
  | keyError
  | otherError
deriving DecidableEq, Repr

/-- Observable effects performed by the embedded code, in program order:
listener control (`self.stop_receive` / `self.start_receive`), serial
settings snapshot/restore, esptool session calls, data-source lifecycle
(`openSrc`/`closeSrc` with the source's index as identity), transfer-speed
changes, flash reads, output-file writes, and the identity probe's port
lifecycle. -/
inductive Event where
  | stopReceive
  | getSettings
  | connectAttempt
  | runStubAttempt
  | applySettings
  | startReceive
  | openSrc (id : Nat)
  | closeSrc (id : Nat)
  | changeBaud (rate : Nat)
  | readFlash (addr : Nat) (size : Nat)
  | writeFile
  | openPort
  | readMacAttempt
  | closePort
  | hardReset
deriving DecidableEq, Repr

/-- `listIsPre pat s` : `pat` is an initial segment of `s` (character lists). -/
def listIsPre : List Char → List Char → Bool
  | [], _ => true
  | _ :: _, [] => false
  | a :: as, b :: bs => a = b && listIsPre as bs

/-- `containsSub pat s` : `pat` occurs contiguously inside `s`; models both
Python's `in` operator on strings and `re.search` for a literal pattern. -/
def containsSub (pat : List Char) : List Char → Bool
  | [] => listIsPre pat []
  | c :: rest => listIsPre pat (c :: rest) || containsSub pat rest

/-- The literal alternatives of `IDFDUT.INVALID_PORT_PATTERN`
(`re.compile(r"AMA|Bluetooth")`); `re.search` with this pattern succeeds
exactly when one alternative occurs as a substring. -/
def INVALID_PORT_PATTERN : List String := ["AMA", "Bluetooth"]

/-- `INVALID_PORT_PATTERN.search(x)` as a Boolean: some alternative is a
substring of the port name. -/
def invalidPortSearch (x : String) : Bool :=
  INVALID_PORT_PATTERN.any fun pat => containsSub pat.data x.data

/-- `IDFDUT.list_available_ports` (lines 211-243).  `ports` is the
enumerated `[x.device for x in list_ports.comports()]`; `espport` models
`os.getenv('ESPPORT')` (`none` = unset; Python treats the empty string as
unset too via `if not espport`); `platformDarwin` models
`sys.platform == 'darwin'`.  The bytes-vs-str decode of `ESPPORT` is
identity here since the hint is already a string.  `ports.remove(h)`
removes the first occurrence, i.e. `List.erase`. -/
def list_available_ports (espport : Option String) (ports : List String)
    (platformDarwin : Bool) : List String :=
  match espport with
  | none => ports.filter fun x => !invalidPortSearch x
  | some espp =>
    if espp = "" then ports.filter fun x => !invalidPortSearch x
    else
      let port_hint := espp
      if port_hint ∈ ports then port_hint :: ports.erase port_hint
      else if platformDarwin && containsSub "tty.".data port_hint.data then
        let port_hint2 := port_hint.replace "tty." "cu."
        if port_hint2 ∈ ports then port_hint2 :: ports.erase port_hint2
        else ports
      else ports

/-- Outcomes of the two esptool session-establishment calls made by the
`_uses_esptool` wrapper: whether `rom.connect('hard_reset')` succeeds and
whether `rom.run_stub()` succeeds (each raises esptool's `FatalError`, a
`RuntimeError` subclass, on failure). -/
structure SessionEnv where
  connectOk : Bool
  runStubOk : Bool
deriving DecidableEq, Repr

/-- The `_uses_esptool` decorator (lines 46-66) applied to a wrapped
operation `body` (the operation's own trace and result).  Faithful to the
source: the decorator has NO try/finally, so `apply_settings` and
`start_receive` run only if connect, stub load and the operation all
succeed; any raised exception propagates with no cleanup. -/
def usesEsptool {α : Type} (env : SessionEnv) (body : List Event × Except Exc α) :
    List Event × Except Exc α :=
  let pre := [Event.stopReceive, Event.getSettings, Event.connectAttempt]
  if env.connectOk = false then
    (pre, .error .runtimeError)
  else if env.runStubOk = false then
    (pre ++ [Event.runStubAttempt], .error .runtimeError)
  else
    match body.2 with
    | .error e => (pre ++ [Event.runStubAttempt] ++ body.1, .error e)
    | .ok a =>
      (pre ++ [Event.runStubAttempt] ++ body.1 ++ [Event.applySettings, Event.startReceive],
       .ok a)

/-- Whether the background listener thread is running after the trace,
starting from state `b` (`stop_receive` stops it, `start_receive` starts
it, nothing else touches it). -/
def listenerAfter (b : Bool) : List Event → Bool
  | [] => b
  | .stopReceive :: rest => listenerAfter false rest
  | .startReceive :: rest => listenerAfter true rest
  | _ :: rest => listenerAfter b rest

/-- The wrapped `reset` operation (lines 161-168): its body performs a
single `esp.hard_reset()` whose outcome is `hardResetRes`
(`none` = success). -/
def reset_trace (hardResetRes : Option Exc) : List Event × Except Exc Unit :=
  match hardResetRes with
  | none => ([Event.hardReset], .ok ())
  | some e => ([Event.hardReset], .error e)

/-- `IDFDUT.reset`: `reset_trace` wrapped by `_uses_esptool`. -/
def reset (env : SessionEnv) (hardResetRes : Option Exc) : List Event × Except Exc Unit :=
  usesEsptool env (reset_trace hardResetRes)

/-- The wrapped `erase_partition` body (lines 170-181): it raises
`NotImplementedError` unconditionally before doing anything. -/
def erase_partition_trace : List Event × Except Exc Unit :=
  ([], .error .notImplemented)

/-- `IDFDUT.erase_partition`: wrapped by `_uses_esptool`. -/
def erase_partition (env : SessionEnv) : List Event × Except Exc Unit :=
  usesEsptool env erase_partition_trace

/-- One entry of the Application Descriptor's partition table: the
partition's declared offset and size.  (In the Python the externally
parsed table stores the offset as a numeral string which `start_app`
converts with `int(address, 0)`; the already-parsed number is modelled.) -/
structure PartInfo where
  offset : Nat
  size : Nat
deriving DecidableEq, Repr

/-- The slice of the external Application Descriptor (`self.app`) that the
module reads: `flash_files` as (offset, path) pairs and the
`partition_table` mapping partition names to offset/size. -/
structure App where
  flash_files : List (Nat × String)
  partition_table : List (String × PartInfo)
deriving Repr

/-- The `dump_flush` body (lines 184-209), after the decorator has run:
keyword selection of the region to read.  `partition` present selects the
partition table entry (a missing name raises `KeyError`); otherwise an
`address`/`size` pair is required, and a call supplying neither raises
`IDFToolError` before any flash read.  On success the region is read
(`esp.read_flash`) and the bytes written to the output file. -/
def dump_flush_trace (app : App) (partition : Option String)
    (address size : Option Nat) : List Event × Except Exc Unit :=
  match partition with
  | some pname =>
    match List.lookup pname app.partition_table with
    | none => ([], .error .keyError)
    | some pi => ([Event.readFlash pi.offset pi.size, Event.writeFile], .ok ())
  | none =>
    match address, size with
    | some a, some s => ([Event.readFlash a s, Event.writeFile], .ok ())
    | _, _ => ([], .error .idfToolError)

/-- `IDFDUT.dump_flush`: the body wrapped by `_uses_esptool`. -/
def dump_flush (env : SessionEnv) (app : App) (partition : Option String)
    (address size : Option Nat) : List Event × Except Exc Unit :=
  usesEsptool env (dump_flush_trace app partition address size)

/-- Outcome of one transfer-speed attempt in `start_app`'s loop, i.e. of
`esp.change_baud(baud)` followed by `esptool.write_flash(esp, args)`:
success, a `RuntimeError` (the negotiation-class failure the loop
catches), or any other exception (propagates). -/
inductive AttemptRes where
  | ok
  | rtErr
  | fatal
deriving DecidableEq, Repr

/-- The speed-negotiation loop of `start_app` (lines 147-156):
`for baud_rate in [921600, 115200]: try ... break; except RuntimeError:
continue; else: raise IDFToolError()`.  `attempt b` is the outcome of the
attempt at baud rate `b`; each attempt is recorded as a `changeBaud`
event. -/
def flashLoop (attempt : Nat → AttemptRes) : List Nat → List Event × Except Exc Unit
  | [] => ([], .error .idfToolError)
  | b :: rest =>
    match attempt b with
    | .ok => ([Event.changeBaud b], .ok ())
    | .fatal => ([Event.changeBaud b], .error .otherError)
    | .rtErr =>
      (Event.changeBaud b :: (flashLoop attempt rest).1, (flashLoop attempt rest).2)

/-- The baud rates `start_app` iterates over, in order. -/
def BAUD_RATES : List Nat := [921600, 115200]

/-- The data-source opening of `start_app` line 114: the list
comprehension `[(offs, open(path, "rb")) for (offs, path) in
self.app.flash_files]`.  `openOk i` says whether opening the i-th file
succeeds (`open` raises `OSError` otherwise); sources are identified by
their index, counted from `i0`.  When an open fails the comprehension
aborts: the files already opened appear in the trace but no handle list is
produced — nothing closes them. -/
def openFiles (openOk : Nat → Bool) : Nat → List (Nat × String) →
    List Event × Except Exc (List Nat)
  | _, [] => ([], .ok [])
  | i0, _ :: rest =>
    if openOk i0 then
      match openFiles openOk (i0 + 1) rest with
      | (evs, .ok ids) => (Event.openSrc i0 :: evs, .ok (i0 :: ids))
      | (evs, .error e) => (Event.openSrc i0 :: evs, .error e)
    else ([], .error .osError)

/-- Lines 116-122 of `start_app`: when `erase_nvs` is set, look up the
"nvs" entry of the partition table (`KeyError` if absent — note the
already-opened files leak in that case too), create the temporary all-0xFF
source (identified as source `n`, the index one past the image segments)
and append it to the plan's handle list. -/
def nvsStep (app : App) (erase_nvs : Bool) (ids : List Nat) (n : Nat) :
    List Event × Except Exc (List Nat) :=
  if erase_nvs then
    match List.lookup "nvs" app.partition_table with
    | none => ([], .error .keyError)
    | some _ => ([Event.openSrc n], .ok (ids ++ [n]))
  else ([], .ok ids)

/-- The `start_app` body (lines 107-159), after the decorator: open the
image-segment sources, optionally synthesize the NVS erase source, then
run the speed-negotiation loop inside `try ... finally`, the `finally`
closing every handle in `flash_files` (only reached once the plan was
fully built — the comprehension and the nvs lookup sit before the
`try`). -/
def start_app_trace (app : App) (openOk : Nat → Bool)
    (attempt : Nat → AttemptRes) (erase_nvs : Bool) :
    List Event × Except Exc Unit :=
  match openFiles openOk 0 app.flash_files with
  | (evs, .error e) => (evs, .error e)
  | (evs, .ok ids) =>
    match nvsStep app erase_nvs ids app.flash_files.length with
    | (evs2, .error e) => (evs ++ evs2, .error e)
    | (evs2, .ok allIds) =>
      (evs ++ evs2 ++ (flashLoop attempt BAUD_RATES).1 ++ allIds.map Event.closeSrc,
       (flashLoop attempt BAUD_RATES).2)

/-- `IDFDUT.start_app`: the body wrapped by `_uses_esptool`. -/
def start_app (env : SessionEnv) (app : App) (openOk : Nat → Bool)
    (attempt : Nat → AttemptRes) (erase_nvs : Bool) :
    List Event × Except Exc Unit :=
  usesEsptool env (start_app_trace app openOk attempt erase_nvs)

/-- The identities of the data sources a trace opened. -/
def openedIds (t : List Event) : List Nat :=
  t.filterMap fun e =>
    match e with
    | Event.openSrc i => some i
    | _ => none

/-- `idList s n` = the identities `s, s+1, ..., s+n-1`. -/
def idList : Nat → Nat → List Nat
  | _, 0 => []
  | s, n + 1 => s :: idList (s + 1) n

/-- The flash-plan contents built by `start_app` lines 114-122, as data:
each image segment's offset with the bytes of its file (`content path`),
plus — when `erase_nvs` is set — one extra entry at the NVS partition's
declared offset whose source is exactly `size` bytes of `0xFF`
(`nvs_file.write(b'\xff' * size)`). -/
def buildFlashFiles (app : App) (content : String → List Nat)
    (erase_nvs : Bool) : Except Exc (List (Nat × List Nat)) :=
  let base := app.flash_files.map fun of => (of.1, content of.2)
  if erase_nvs then
    match List.lookup "nvs" app.partition_table with
    | none => .error .keyError
    | some pi => .ok (base ++ [(pi.offset, List.replicate pi.size 255)])
  else .ok base

/-- `IDFDUT.get_mac` (lines 84-100): construct `esptool.ESP32ROM(port)`
(which opens the serial port), `connect`, `read_mac`, under
`try/except RuntimeError: return None` and `finally: esp._port.close()`.
`connectRes` is the exception `esp.connect()` raises (`none` = success);
`macRes` the outcome of `esp.read_mac()`.  A `RuntimeError` (esptool's
`FatalError` — device not responding / not a compatible boot ROM) from
either call is caught and turned into `none`; any other exception
propagates; the `finally` closes the port on every path. -/
def get_mac (connectRes : Option Exc) (macRes : Except Exc (List Nat)) :
    List Event × Except Exc (Option (List Nat)) :=
  let pre := [Event.openPort, Event.connectAttempt]
  match connectRes with
  | some .runtimeError => (pre ++ [Event.closePort], .ok none)
  | some e => (pre ++ [Event.closePort], .error e)
  | none =>
    match macRes with
    | .error .runtimeError => (pre ++ [Event.readMacAttempt, Event.closePort], .ok none)
    | .error e => (pre ++ [Event.readMacAttempt, Event.closePort], .error e)
    | .ok mac => (pre ++ [Event.readMacAttempt, Event.closePort], .ok (some mac))

/-- A POSIX path, split into its flag (leading slash) and components. -/
structure PPath where
  absolute : Bool
  comps : List String
deriving DecidableEq, Repr

/-- `posixpath.abspath` on the component model: a relative path is
interpreted against the current working directory `cwd` (itself given as
the components of an absolute path). -/
def abspathComps (p : PPath) (cwd : List String) : List String :=
  if p.absolute then p.comps else cwd ++ p.comps

/-- Length of the longest common initial segment of two component lists. -/
def commonLen : List String → List String → Nat
  | a :: as, b :: bs => if a = b then commonLen as bs + 1 else 0
  | _, _ => 0

/-- `posixpath.relpath(path, start)` on the component model: make both
absolute against `cwd`, drop their common leading components, and climb
out of what remains of `start` with `..` entries. -/
def relpathModel (p start : PPath) (cwd : List String) : PPath :=
  let pa := abspathComps p cwd
  let sa := abspathComps start cwd
  let i := commonLen sa pa
  ⟨false, List.replicate (sa.length - i) ".." ++ pa.drop i⟩

/-- One step of kernel path resolution: a `..` component pops, anything
else pushes. -/
def resolveStep (acc : List String) (c : String) : List String :=
  if c = ".." then acc.dropLast else acc ++ [c]

/-- Where the operating system actually creates `open(path, "wb")`: the
path made absolute against the process working directory, with `..`
collapsed. -/
def resolveAgainst (p : PPath) (cwd : List String) : List String :=
  (abspathComps p cwd).foldl resolveStep []

/-- The output path `dump_flush` lines 195-196 actually write to: a
relative `output_file` is replaced by
`os.path.relpath(output_file, self.app.get_log_folder())` and then opened,
i.e. resolved against the process working directory; an absolute one is
opened as given. -/
def dumpOutputPathCode (output log : PPath) (cwd : List String) : List String :=
  if output.absolute then resolveAgainst output cwd
  else resolveAgainst (relpathModel output log cwd) cwd

/-- Modelled from the spec: "relative paths resolved against the
Application Descriptor's log folder", i.e. the log folder joined with the
given relative path; absolute paths used as given.  (This matches the
function's own docstring, "if relative path, will use sdk path as base
path".) -/
def dumpOutputPathSpec (output log : PPath) : List String :=
  if output.absolute then output.comps else log.comps ++ output.comps

theorem listenerAfter_append (b : Bool) (l1 l2 : List Event) :
    listenerAfter b (l1 ++ l2) = listenerAfter (listenerAfter b l1) l2 := by
  induction l1 generalizing b with
  | nil => rfl
  | cons e rest ih => cases e <;> simp [listenerAfter, ih]

theorem listenerAfter_no_start (l : List Event)
    (h : ∀ e ∈ l, e ≠ Event.startReceive) : listenerAfter false l = false := by
  induction l with
  | nil => rfl
  | cons e rest ih =>
    have he := h e (List.mem_cons_self e rest)
    have hr : ∀ x ∈ rest, x ≠ Event.startReceive :=
      fun x hx => h x (List.mem_cons_of_mem e hx)
    cases e <;> simp_all [listenerAfter]

/-- Counterexample to claim C1: calling `reset` when the boot-ROM connect
fails leaves the listener stopped and never restores the serial settings —
the wrapper raises with no cleanup, contradicting the claim that cleanup
happens "whether the operation succeeds or the connect/stub-load/operation
raises". -/
theorem c1_counterexample :
    reset ⟨false, true⟩ none =
      ([Event.stopReceive, Event.getSettings, Event.connectAttempt],
        Except.error Exc.runtimeError) ∧
    listenerAfter true (reset ⟨false, true⟩ none).1 = false ∧
    Event.applySettings ∉ (reset ⟨false, true⟩ none).1 :=
  ⟨rfl, by decide, by decide⟩

/-- Claim C1 as amended: for every wrapped control operation, cleanup is
performed exactly on the success path — if connect, stub-load and the
operation all succeed, the listener is running again and the snapshotted
settings were restored; if any of them raises, the exception propagates
with the listener left stopped and the settings never restored.  `hbody`
records that operation bodies do not themselves touch the listener or the
settings (true of all four operations in the module). -/
theorem c1_cleanup_only_on_success (env : SessionEnv)
    (body : List Event × Except Exc Unit)
    (hbody : ∀ e ∈ body.1, e ≠ Event.startReceive ∧ e ≠ Event.applySettings) :
    (∀ a, (usesEsptool env body).2 = .ok a →
      listenerAfter true (usesEsptool env body).1 = true ∧
      Event.applySettings ∈ (usesEsptool env body).1) ∧
    (∀ e, (usesEsptool env body).2 = .error e →
      listenerAfter true (usesEsptool env body).1 = false ∧
      Event.applySettings ∉ (usesEsptool env body).1) := by
  obtain ⟨c, s⟩ := env
  obtain ⟨evs, r⟩ := body
  have hstart : ∀ e ∈ evs, e ≠ Event.startReceive := fun e he => (hbody e he).1
  have happly : Event.applySettings ∉ evs := by
    intro hmem
    exact (hbody _ hmem).2 rfl
  cases c with
  | false =>
    refine ⟨fun a ha => by simp [usesEsptool] at ha,
      fun e he => ⟨rfl, by intro hm; simp [usesEsptool] at hm⟩⟩
  | true =>
    cases s with
    | false =>
      refine ⟨fun a ha => by simp [usesEsptool] at ha,
        fun e he => ⟨rfl, by intro hm; simp [usesEsptool] at hm⟩⟩
    | true =>
      cases r with
      | error e0 =>
        refine ⟨fun a ha => by simp [usesEsptool] at ha, fun e he => ?_⟩
        constructor
        · show listenerAfter true
            ([Event.stopReceive, Event.getSettings, Event.connectAttempt] ++
              [Event.runStubAttempt] ++ evs) = false
          rw [listenerAfter_append]
          exact listenerAfter_no_start evs hstart
        · show Event.applySettings ∉
            ([Event.stopReceive, Event.getSettings, Event.connectAttempt] ++
              [Event.runStubAttempt] ++ evs)
          simp [happly]
      | ok a0 =>
        refine ⟨fun a ha => ?_, fun e he => by simp [usesEsptool] at he⟩
        constructor
        · show listenerAfter true
            ([Event.stopReceive, Event.getSettings, Event.connectAttempt] ++
              [Event.runStubAttempt] ++ evs ++
              [Event.applySettings, Event.startReceive]) = true
          rw [listenerAfter_append]
          rfl
        · show Event.applySettings ∈
            ([Event.stopReceive, Event.getSettings, Event.connectAttempt] ++
              [Event.runStubAttempt] ++ evs ++
              [Event.applySettings, Event.startReceive])
          simp

/-- Witness for the amended C1 at a concrete successful session. -/
theorem c1_cleanup_only_on_success_witness :
    listenerAfter true (usesEsptool ⟨true, true⟩ ([], Except.ok ())).1 = true :=
  ((c1_cleanup_only_on_success ⟨true, true⟩ ([], Except.ok ())
    (by intro e he; cases he)).1 () rfl).1

/-- Claim C8: for every enumerated port list with no hint, the resolver
returns exactly the input list with every port matching the invalid-port
pattern removed, and the relative order of the remaining ports preserved
(the result is a sublist, and membership is filtered membership). -/
theorem c8_no_hint_filters_invalid (ports : List String) (d : Bool) :
    list_available_ports none ports d = ports.filter (fun x => !invalidPortSearch x) ∧
    List.Sublist (list_available_ports none ports d) ports ∧
    ∀ p, p ∈ list_available_ports none ports d ↔
      (p ∈ ports ∧ invalidPortSearch p = false) := by
  refine ⟨rfl, List.filter_sublist ports, ?_⟩
  intro p
  simp [list_available_ports, List.mem_filter]

/-- Claim C9: for every enumerated port list and a (non-empty) hint equal to
one of its ports, the result has the hinted port first, is a permutation of
the full unfiltered input, has no duplicates when the input has none, and its
tail is the input with the hint's first occurrence removed (a sublist, so the
relative order of the other ports is preserved). -/
theorem c9_hint_promoted_first (ports : List String) (hint : String) (d : Bool)
    (hmem : hint ∈ ports) (hne : hint ≠ "") :
    (list_available_ports (some hint) ports d).head? = some hint ∧
    List.Perm (list_available_ports (some hint) ports d) ports ∧
    (ports.Nodup → (list_available_ports (some hint) ports d).Nodup) ∧
    (list_available_ports (some hint) ports d).tail = ports.erase hint ∧
    List.Sublist (ports.erase hint) ports := by
  have hresult : list_available_ports (some hint) ports d = hint :: ports.erase hint := by
    simp [list_available_ports, hne, hmem]
  rw [hresult]
  refine ⟨rfl, (List.perm_cons_erase hmem).symm, ?_, rfl, List.erase_sublist hint ports⟩
  intro hnd
  exact List.nodup_cons.mpr ⟨hnd.not_mem_erase, hnd.erase hint⟩

/-- Witness for C9 at a concrete port list and hint. -/
theorem c9_hint_promoted_first_witness :
    (list_available_ports (some "/dev/ttyUSB1") ["/dev/ttyUSB0", "/dev/ttyUSB1"] false).head? =
      some "/dev/ttyUSB1" :=
  (c9_hint_promoted_first ["/dev/ttyUSB0", "/dev/ttyUSB1"] "/dev/ttyUSB1" false
    (by decide) (by decide)).1

/-- Counterexample to claim C2: a `dump_flush` call with neither
`partition` nor `address`/`size` does raise `IDFToolError`, but only after
the `_uses_esptool` decorator has already stopped the listener, attempted
the boot-ROM connect and loaded the stub — not "before any boot-ROM
connect or stub-load is attempted" as claimed. -/
theorem c2_counterexample :
    dump_flush ⟨true, true⟩ ⟨[], []⟩ none none none =
      ([Event.stopReceive, Event.getSettings, Event.connectAttempt, Event.runStubAttempt],
        Except.error Exc.idfToolError) ∧
    Event.connectAttempt ∈ (dump_flush ⟨true, true⟩ ⟨[], []⟩ none none none).1 ∧
    Event.runStubAttempt ∈ (dump_flush ⟨true, true⟩ ⟨[], []⟩ none none none).1 :=
  ⟨rfl, by decide, by decide⟩

/-- Claim C2 as amended: a `dump_flush` call supplying neither `partition`
nor both `address` and `size` fails with `IDFToolError` before any flash
read or output-file write is performed — but only after the session
wrapper has already attempted the boot-ROM connect and stub load. -/
theorem c2_invalid_dump_args (env : SessionEnv) (app : App)
    (address size : Option Nat)
    (hc : env.connectOk = true) (hs : env.runStubOk = true)
    (hmissing : address = none ∨ size = none) :
    (dump_flush env app none address size).2 = .error .idfToolError ∧
    (∀ a s, Event.readFlash a s ∉ (dump_flush env app none address size).1) ∧
    Event.writeFile ∉ (dump_flush env app none address size).1 := by
  obtain ⟨c, st⟩ := env
  simp only at hc hs
  subst hc hs
  cases address with
  | none =>
    cases size with
    | none =>
      exact ⟨rfl, fun a s h => by
        simp [dump_flush, dump_flush_trace, usesEsptool] at h,
        fun h => by simp [dump_flush, dump_flush_trace, usesEsptool] at h⟩
    | some s0 =>
      exact ⟨rfl, fun a s h => by
        simp [dump_flush, dump_flush_trace, usesEsptool] at h,
        fun h => by simp [dump_flush, dump_flush_trace, usesEsptool] at h⟩
  | some a0 =>
    cases size with
    | none =>
      exact ⟨rfl, fun a s h => by
        simp [dump_flush, dump_flush_trace, usesEsptool] at h,
        fun h => by simp [dump_flush, dump_flush_trace, usesEsptool] at h⟩
    | some s0 =>
      rcases hmissing with h | h <;> simp at h

/-- Witness for the amended C2 at a concrete invalid call. -/
theorem c2_invalid_dump_args_witness :
    (dump_flush ⟨true, true⟩ ⟨[], []⟩ none (some 16) none).2 =
      .error .idfToolError :=
  (c2_invalid_dump_args ⟨true, true⟩ ⟨[], []⟩ (some 16) none rfl rfl
    (Or.inr rfl)).1

/-- Claim C3: during flashing at most two transfer-speed attempts are made:
the preferred 921600 first; on a negotiation-class (`RuntimeError`) failure
one retry at 115200; if the fallback succeeds the operation succeeds, if
both fail it fails with `IDFToolError`, and in every case no third attempt
occurs. -/
theorem c3_two_speed_attempts (attempt : Nat → AttemptRes) :
    (attempt 921600 = .rtErr → attempt 115200 = .ok →
      flashLoop attempt BAUD_RATES =
        ([Event.changeBaud 921600, Event.changeBaud 115200], .ok ())) ∧
    (attempt 921600 = .rtErr → attempt 115200 = .rtErr →
      flashLoop attempt BAUD_RATES =
        ([Event.changeBaud 921600, Event.changeBaud 115200],
          .error .idfToolError)) ∧
    (flashLoop attempt BAUD_RATES).1.length ≤ 2 := by
  refine ⟨?_, ?_, ?_⟩
  · intro h1 h2
    simp [flashLoop, BAUD_RATES, h1, h2]
  · intro h1 h2
    simp [flashLoop, BAUD_RATES, h1, h2]
  · cases h1 : attempt 921600 <;> cases h2 : attempt 115200 <;>
      simp [flashLoop, BAUD_RATES, h1, h2]

/-- Witness for C3: a concrete outcome function where the preferred speed
fails with the negotiation-class error and the fallback succeeds. -/
theorem c3_two_speed_attempts_witness :
    flashLoop (fun b => if b = 921600 then AttemptRes.rtErr else AttemptRes.ok)
        BAUD_RATES =
      ([Event.changeBaud 921600, Event.changeBaud 115200], .ok ()) :=
  (c3_two_speed_attempts
    (fun b => if b = 921600 then AttemptRes.rtErr else AttemptRes.ok)).1
    (by decide) (by decide)

/-- Claim C10 (implicit): when `dump_flush` is given both a `partition`
keyword and an `address`/`size` pair, the partition's declared offset and
size are used for the read and the supplied address and size are ignored
entirely (the call behaves identically to one without them). -/
theorem c10_partition_takes_precedence (env : SessionEnv) (app : App)
    (pname : String) (a s : Nat) (pi : PartInfo)
    (hp : List.lookup pname app.partition_table = some pi) :
    dump_flush env app (some pname) (some a) (some s) =
      dump_flush env app (some pname) none none ∧
    (env.connectOk = true → env.runStubOk = true →
      Event.readFlash pi.offset pi.size ∈
        (dump_flush env app (some pname) (some a) (some s)).1) := by
  refine ⟨rfl, ?_⟩
  intro hc hs
  obtain ⟨c, st⟩ := env
  simp only at hc hs
  subst hc hs
  simp [dump_flush, dump_flush_trace, usesEsptool, hp]

/-- Witness for C10 at a concrete app whose table declares an "nvs"
partition at offset 0x9000 with size 0x6000. -/
theorem c10_partition_takes_precedence_witness :
    Event.readFlash 36864 24576 ∈
      (dump_flush ⟨true, true⟩ ⟨[], [("nvs", ⟨36864, 24576⟩)]⟩
        (some "nvs") (some 1) (some 2)).1 :=
  (c10_partition_takes_precedence ⟨true, true⟩ ⟨[], [("nvs", ⟨36864, 24576⟩)]⟩
    "nvs" 1 2 ⟨36864, 24576⟩ (by decide)).2 rfl rfl

/-- Claim C4 evaluated at the failing input (code bug): for the relative
output `"dump.bin"`, log folder `/logs`, and working directory `/work`,
the code computes `os.path.relpath("dump.bin", "/logs")` =
`../work/dump.bin` and ends up writing `/work/dump.bin`, while the claim
(and the function's own docstring) require the log folder as base path,
`/logs/dump.bin`.  Absolute output paths are used as given, as claimed. -/
theorem c4_relative_output_path_bug :
    dumpOutputPathCode ⟨false, ["dump.bin"]⟩ ⟨true, ["logs"]⟩ ["work"] =
      ["work", "dump.bin"] ∧
    dumpOutputPathSpec ⟨false, ["dump.bin"]⟩ ⟨true, ["logs"]⟩ =
      ["logs", "dump.bin"] ∧
    dumpOutputPathCode ⟨false, ["dump.bin"]⟩ ⟨true, ["logs"]⟩ ["work"] ≠
      dumpOutputPathSpec ⟨false, ["dump.bin"]⟩ ⟨true, ["logs"]⟩ ∧
    dumpOutputPathCode ⟨true, ["data", "out.bin"]⟩ ⟨true, ["logs"]⟩ ["work"] =
      ["data", "out.bin"] := by
  refine ⟨rfl, rfl, ?_, rfl⟩
  decide

/-- Claim C5: with `erase_nvs` true and an NVS partition declared at
offset `pi.offset` with size `pi.size`, the flash plan is exactly the
image segments plus one extra entry at that offset whose source is exactly
`pi.size` bytes, every byte `0xFF`. -/
theorem c5_erase_nvs_plan (app : App) (content : String → List Nat)
    (pi : PartInfo)
    (hp : List.lookup "nvs" app.partition_table = some pi) :
    buildFlashFiles app content true =
      .ok ((app.flash_files.map fun of => (of.1, content of.2)) ++
        [(pi.offset, List.replicate pi.size 255)]) ∧
    (List.replicate pi.size (255 : Nat)).length = pi.size ∧
    ∀ b ∈ List.replicate pi.size (255 : Nat), b = 255 := by
  refine ⟨by simp [buildFlashFiles, hp], by simp, ?_⟩
  intro b hb
  exact List.eq_of_mem_replicate hb

/-- Witness for C5 at a concrete app with one image segment and a 4-byte
NVS partition. -/
theorem c5_erase_nvs_plan_witness :
    buildFlashFiles ⟨[(4096, "app.bin")], [("nvs", ⟨36864, 4⟩)]⟩
        (fun _ => [1, 2]) true =
      .ok [(4096, [1, 2]), (36864, List.replicate 4 255)] := by
  have h := (c5_erase_nvs_plan ⟨[(4096, "app.bin")], [("nvs", ⟨36864, 4⟩)]⟩
    (fun _ => [1, 2]) ⟨36864, 4⟩ (by decide)).1
  simpa using h

/-- Claim C7: the identity probe `get_mac` returns the MAC on success and
`None` (rather than raising) when connect or the MAC read fails with the
boot-ROM/non-responsive class of error (`RuntimeError`), and on every
return path the port it opened is closed exactly once. -/
theorem c7_get_mac_probe (connectRes : Option Exc)
    (macRes : Except Exc (List Nat)) :
    (get_mac connectRes macRes).1.count Event.closePort = 1 ∧
    (connectRes = some .runtimeError →
      (get_mac connectRes macRes).2 = .ok none) ∧
    (connectRes = none → macRes = .error .runtimeError →
      (get_mac connectRes macRes).2 = .ok none) ∧
    (∀ mac, connectRes = none → macRes = .ok mac →
      (get_mac connectRes macRes).2 = .ok (some mac)) := by
  cases connectRes with
  | none =>
    cases macRes with
    | ok mac =>
      refine ⟨rfl, fun h => by simp at h, fun _ h => by simp at h,
        fun m _ hm => ?_⟩
      cases hm
      rfl
    | error e =>
      cases e <;>
        exact ⟨rfl, fun h => by simp at h,
          fun _ hm => by first | rfl | simp at hm,
          fun m _ hm => by simp at hm⟩
  | some e =>
    cases e <;>
      exact ⟨rfl, fun h => by first | rfl | simp at h,
        fun hc _ => by simp at hc, fun m hc _ => by simp at hc⟩

/-- Witness for C7: a non-responsive device (connect raises the
`RuntimeError`-class failure) yields `None`, not an exception. -/
theorem c7_get_mac_probe_witness :
    (get_mac (some Exc.runtimeError) (Except.ok [])).2 = .ok none :=
  (c7_get_mac_probe (some Exc.runtimeError) (Except.ok [])).2.1 rfl

theorem mem_idList {n s i : Nat} : i ∈ idList s n ↔ s ≤ i ∧ i < s + n := by
  induction n generalizing s with
  | zero => simp [idList]
  | succ m ih =>
    simp [idList, ih]
    omega

theorem idList_nodup (n s : Nat) : (idList s n).Nodup := by
  induction n generalizing s with
  | zero => exact List.nodup_nil
  | succ m ih =>
    refine List.nodup_cons.mpr ⟨?_, ih (s + 1)⟩
    rw [mem_idList]
    omega

theorem openFiles_ok (openOk : Nat → Bool) (hopen : ∀ i, openOk i = true) :
    ∀ (l : List (Nat × String)) (s : Nat),
      openFiles openOk s l =
        ((idList s l.length).map Event.openSrc, .ok (idList s l.length)) := by
  intro l
  induction l with
  | nil => intro s; rfl
  | cons p rest ih =>
    intro s
    simp [openFiles, hopen s, ih (s + 1), idList]

theorem flashLoop_evs (attempt : Nat → AttemptRes) :
    ∀ l : List Nat, ∀ e ∈ (flashLoop attempt l).1, ∃ b, e = Event.changeBaud b := by
  intro l
  induction l with
  | nil =>
    intro e he
    simp [flashLoop] at he
  | cons b rest ih =>
    intro e he
    cases hb : attempt b with
    | ok =>
      simp [flashLoop, hb] at he
      exact ⟨b, he⟩
    | fatal =>
      simp [flashLoop, hb] at he
      exact ⟨b, he⟩
    | rtErr =>
      simp only [flashLoop, hb, List.mem_cons] at he
      rcases he with rfl | he
      · exact ⟨b, rfl⟩
      · exact ih e he

theorem openedIds_append (t1 t2 : List Event) :
    openedIds (t1 ++ t2) = openedIds t1 ++ openedIds t2 := by
  simp [openedIds]

theorem openedIds_map_openSrc (l : List Nat) :
    openedIds (l.map Event.openSrc) = l := by
  induction l with
  | nil => rfl
  | cons a rest ih =>
    simp only [List.map_cons, openedIds, List.filterMap_cons] at ih ⊢
    simpa using ih

theorem openedIds_map_closeSrc (l : List Nat) :
    openedIds (l.map Event.closeSrc) = [] := by
  induction l with
  | nil => rfl
  | cons a rest ih =>
    simp only [List.map_cons, openedIds, List.filterMap_cons] at ih ⊢
    exact ih

theorem openedIds_flashLoop (attempt : Nat → AttemptRes) (l : List Nat) :
    openedIds (flashLoop attempt l).1 = [] := by
  rw [List.eq_nil_iff_forall_not_mem]
  intro i hi
  rcases List.mem_filterMap.mp hi with ⟨e, he, hsome⟩
  rcases flashLoop_evs attempt l e he with ⟨b, rfl⟩
  simp at hsome

theorem count_closeSrc_map_openSrc (l : List Nat) (i : Nat) :
    (l.map Event.openSrc).count (Event.closeSrc i) = 0 := by
  rw [List.count_eq_zero]
  intro h
  rcases List.mem_map.mp h with ⟨j, _, hj⟩
  exact Event.noConfusion hj

theorem count_closeSrc_flashLoop (attempt : Nat → AttemptRes) (l : List Nat) (i : Nat) :
    ((flashLoop attempt l).1).count (Event.closeSrc i) = 0 := by
  rw [List.count_eq_zero]
  intro h
  rcases flashLoop_evs attempt l _ h with ⟨b, hb⟩
  exact Event.noConfusion hb

theorem count_closeSrc_map_closeSrc (l : List Nat) (i : Nat) :
    (l.map Event.closeSrc).count (Event.closeSrc i) = l.count i :=
  List.count_map_of_injective l Event.closeSrc (fun _ _ h => Event.closeSrc.inj h) i

theorem openedIds_single_openSrc (m : Nat) : openedIds [Event.openSrc m] = [m] := rfl

theorem count_closeSrc_single_openSrc (m i : Nat) :
    ([Event.openSrc m] : List Event).count (Event.closeSrc i) = 0 := by
  rw [List.count_eq_zero]
  intro h
  simp at h

theorem idList_append_last_nodup (n : Nat) : (idList 0 n ++ [n]).Nodup := by
  refine (idList_nodup n 0).append (List.nodup_singleton n) ?_
  intro a ha hb
  rw [mem_idList] at ha
  simp at hb
  omega

theorem start_app_trace_closes (app : App) (openOk : Nat → Bool)
    (attempt : Nat → AttemptRes) (erase_nvs : Bool)
    (hopen : ∀ i, openOk i = true)
    (hnvs : erase_nvs = true → (List.lookup "nvs" app.partition_table).isSome = true) :
    ∀ i ∈ openedIds (start_app_trace app openOk attempt erase_nvs).1,
      ((start_app_trace app openOk attempt erase_nvs).1).count (Event.closeSrc i) = 1 := by
  have hof := openFiles_ok openOk hopen app.flash_files 0
  cases erase_nvs with
  | false =>
    intro i hi
    simp only [start_app_trace, hof, nvsStep, Bool.false_eq_true, if_false,
      openedIds_append, openedIds_map_openSrc, openedIds_map_closeSrc,
      openedIds_flashLoop, List.append_nil, List.nil_append] at hi
    simp only [start_app_trace, hof, nvsStep, Bool.false_eq_true, if_false,
      List.count_append, count_closeSrc_map_openSrc, count_closeSrc_flashLoop,
      count_closeSrc_map_closeSrc, List.count_nil]
    simpa using List.count_eq_one_of_mem (idList_nodup app.flash_files.length 0) hi
  | true =>
    have hsome := hnvs rfl
    obtain ⟨pi, hp⟩ := Option.isSome_iff_exists.mp hsome
    intro i hi
    simp only [start_app_trace, hof, nvsStep, if_true, hp,
      openedIds_append, openedIds_map_openSrc, openedIds_map_closeSrc,
      openedIds_flashLoop, openedIds_single_openSrc,
      List.append_nil, List.nil_append] at hi
    simp only [start_app_trace, hof, nvsStep, if_true, hp,
      List.count_append, count_closeSrc_map_openSrc, count_closeSrc_flashLoop,
      count_closeSrc_map_closeSrc, count_closeSrc_single_openSrc, List.count_nil]
    have hmem : i ∈ idList 0 app.flash_files.length ++ [app.flash_files.length] := by
      simpa using hi
    simpa using List.count_eq_one_of_mem
      (idList_append_last_nodup app.flash_files.length) hmem

theorem usesEsptool_openedIds_count {α : Type} (env : SessionEnv)
    (body : List Event × Except Exc α) :
    openedIds (usesEsptool env body).1 =
      (if env.connectOk && env.runStubOk then openedIds body.1 else []) ∧
    ∀ i, ((usesEsptool env body).1).count (Event.closeSrc i) =
      (if env.connectOk && env.runStubOk then body.1.count (Event.closeSrc i) else 0) := by
  obtain ⟨c, st⟩ := env
  cases c with
  | false => exact ⟨rfl, fun i => rfl⟩
  | true =>
    cases st with
    | false => exact ⟨rfl, fun i => rfl⟩
    | true =>
      cases hr : body.2 with
      | error e =>
        constructor
        · simp [usesEsptool, hr, openedIds, List.filterMap_append]
        · intro i
          simp [usesEsptool, hr, List.count_append, List.count_cons]
      | ok a =>
        constructor
        · simp [usesEsptool, hr, openedIds, List.filterMap_append]
        · intro i
          simp [usesEsptool, hr, List.count_append, List.count_cons]

/-- Counterexample to claim C6: with two image segments where opening the
second file fails, the first source was opened but is never closed —
`start_app` raises out of the list comprehension before the
`try ... finally` that closes the plan's handles is ever entered. -/
theorem c6_counterexample :
    openedIds (start_app ⟨true, true⟩ ⟨[(0, "a.bin"), (4096, "b.bin")], []⟩
      (fun i => i == 0) (fun _ => AttemptRes.ok) false).1 = [0] ∧
    ((start_app ⟨true, true⟩ ⟨[(0, "a.bin"), (4096, "b.bin")], []⟩
      (fun i => i == 0) (fun _ => AttemptRes.ok) false).1).count
        (Event.closeSrc 0) = 0 ∧
    (start_app ⟨true, true⟩ ⟨[(0, "a.bin"), (4096, "b.bin")], []⟩
      (fun i => i == 0) (fun _ => AttemptRes.ok) false).2 = .error .osError :=
  ⟨rfl, rfl, rfl⟩

/-- Claim C6 as amended: once every data source of the plan has been
opened successfully (all image-segment opens succeed and, when erase is
requested, the NVS partition exists so the erase source is created), every
opened source is closed exactly once before `start_app` returns, on the
success path and on every transfer-failure path; but when opening a later
source fails during plan construction, the already-opened sources are not
closed (see the counterexample). -/
theorem c6_sources_closed_once_after_build (env : SessionEnv) (app : App)
    (openOk : Nat → Bool) (attempt : Nat → AttemptRes) (erase_nvs : Bool)
    (hopen : ∀ i, openOk i = true)
    (hnvs : erase_nvs = true → (List.lookup "nvs" app.partition_table).isSome = true) :
    ∀ i ∈ openedIds (start_app env app openOk attempt erase_nvs).1,
      ((start_app env app openOk attempt erase_nvs).1).count (Event.closeSrc i) = 1 := by
  intro i hi
  obtain ⟨hids, hcount⟩ :=
    usesEsptool_openedIds_count env (start_app_trace app openOk attempt erase_nvs)
  rw [start_app] at hi ⊢
  rw [hids] at hi
  rw [hcount i]
  by_cases hc : env.connectOk && env.runStubOk
  · rw [if_pos hc] at hi ⊢
    exact start_app_trace_closes app openOk attempt erase_nvs hopen hnvs i hi
  · rw [if_neg hc] at hi
    cases hi

/-- Witness for the amended C6: one image segment, every open succeeds,
transfer succeeds; the single opened source (id 0) is closed exactly
once. -/
theorem c6_sources_closed_once_after_build_witness :
    ((start_app ⟨true, true⟩ ⟨[(0, "a.bin")], []⟩ (fun _ => true)
      (fun _ => AttemptRes.ok) false).1).count (Event.closeSrc 0) = 1 :=
  c6_sources_closed_once_after_build ⟨true, true⟩ ⟨[(0, "a.bin")], []⟩
    (fun _ => true) (fun _ => AttemptRes.ok) false (fun _ => rfl)
    (fun h => Bool.noConfusion h) 0 (by decide)

/-- Witness for C8 at a concrete enumeration containing one invalid
(`AMA`-matching) port. -/
theorem c8_no_hint_filters_invalid_witness :
    list_available_ports none ["/dev/ttyAMA0", "/dev/ttyUSB0"] false =
      ["/dev/ttyUSB0"] :=
  ((c8_no_hint_filters_invalid ["/dev/ttyAMA0", "/dev/ttyUSB0"] false).1).trans
    (by decide)
